import Mathlib

/-!
Shallow embedding of `src/Rewards.py` (Microsoft-Rewards-Automation).

The repository is a single Python file with two components relevant to the
claims:

* `Config` — loads a JSON configuration file, merging its top-level keys over
  built-in defaults (`{**DEFAULT_CONFIG, **json.load(f)}`), falling back to the
  defaults on a missing file or any other read/parse failure; `save` writes the
  mapping back with `json.dump`.
* `BingSearchAutomation.perform_search` — validates the two input paths,
  reads and filters the search-term file, opens one browser session, iterates
  the terms with a bounded per-term retry loop on `TimeoutException`, re-raises
  any other `WebDriverException`, and in a `finally` block closes the session
  (errors swallowed) and emits a final status report.

Python dicts are modelled as ordered association lists `List (String × JValue)`
(first binding wins on lookup; the source dicts have no duplicate keys).
`JValue` models the Python values that appear: note that Python tuples are
JSON-serializable via `json.dump` but come back as JSON arrays (lists), which
`jsonNormalize` captures.

The runner is modelled as a total function over a `RunEnv` describing the
environment: whether each path exists, the raw lines of the term file (`none`
models a read failure), whether the driver launches, the outcome of the n-th
call to `single_search` (success / `TimeoutException` / other
`WebDriverException`), the `running` flag (the run is single-threaded and the
claims only concern a flag value fixed before the run), and the configured
`max_retries`. The trace fields of `RunResult` record exactly what the Python
control flow does: `statuses` are the `update_status` messages in order (which
both log and invoke the GUI callback), `logs` are the bare `logging.error`
calls, `perTerm` is the number of `single_search` calls made for each term
entered, and `sessionOpened` / `sessionClosed` record whether
`webdriver.Edge` was constructed and whether `driver.quit()` was attempted in
the `finally` block (its own errors are swallowed by `except: pass`, so the
quit outcome cannot influence the result and is not a parameter).
-/

namespace Rewards

/-- JSON-ish values manipulated by the script: the Python values stored in the
configuration dict and what `json` turns them into. `tup` is a Python tuple
(serializable by `json.dump`, which renders it as an array). -/
inductive JValue where
  | null
  | jbool (b : Bool)
  | num (n : Int)
  | str (s : String)
  | arr (xs : List JValue)
  | tup (xs : List JValue)
  | obj (fields : List (String × JValue))

mutual

/-- What a value becomes after `json.dump` then `json.load`: tuples are
serialized as JSON arrays and come back as lists; everything else is
structural. -/
def jsonNormalize : JValue → JValue
  | .null => .null
  | .jbool b => .jbool b
  | .num n => .num n
  | .str s => .str s
  | .arr xs => .arr (jsonNormalizeList xs)
  | .tup xs => .arr (jsonNormalizeList xs)
  | .obj fs => .obj (jsonNormalizeFields fs)

def jsonNormalizeList : List JValue → List JValue
  | [] => []
  | x :: xs => jsonNormalize x :: jsonNormalizeList xs

def jsonNormalizeFields : List (String × JValue) → List (String × JValue)
  | [] => []
  | (k, v) :: fs => (k, jsonNormalize v) :: jsonNormalizeFields fs

end

/-- `Config.DEFAULT_CONFIG` from `Rewards.py` lines 20–26: delay window
`(3, 7)` (a Python tuple), page-load timeout 30, 3 retries, logging on,
headless off. -/
def DEFAULT_CONFIG : List (String × JValue) :=
  [("search_delay", .tup [.num 3, .num 7]),
   ("page_load_timeout", .num 30),
   ("max_retries", .num 3),
   ("save_log", .jbool true),
   ("headless_mode", .jbool false)]

/-- One entry of the Python dict-merge `{**a, **b}`: an entry of `a` keeps its
key, and takes `b`'s value when `b` also binds that key. -/
def overrideWith (b : List (String × JValue)) (p : String × JValue) :
    String × JValue :=
  (p.1, match List.lookup p.1 b with
        | some v => v
        | none => p.2)

/-- Python `{**a, **b}` on string-keyed dicts: the keys of `a` in order with
`b`'s values where present, then the keys of `b` not in `a`, in `b`'s order. -/
def pyMerge (a b : List (String × JValue)) : List (String × JValue) :=
  a.map (overrideWith b) ++ b.filter (fun q => (List.lookup q.1 a).isNone)

/-- The possible states of the configuration file as `Config.load` sees it:
missing (`FileNotFoundError`), unreadable or malformed (any other exception,
including `json` parse errors), or successfully parsed to a JSON value. -/
inductive ConfigFile where
  | missing
  | malformed
  | parsed (v : JValue)

/-- `Config.load` (`Rewards.py` lines 36–45): returns
`{**DEFAULT_CONFIG, **json.load(f)}` when the file parses to an object;
returns the defaults on `FileNotFoundError`; logs and returns the defaults on
any other exception — including the `TypeError` raised by the dict-merge when
the parsed JSON value is not an object. -/
def Config.load : ConfigFile → List (String × JValue)
  | .missing => DEFAULT_CONFIG
  | .malformed => DEFAULT_CONFIG
  | .parsed (.obj fields) => pyMerge DEFAULT_CONFIG fields
  | .parsed _ => DEFAULT_CONFIG

/-- `Config.save` (`Rewards.py` lines 47–53): `json.dump(config, f)`, any
exception logged and swallowed. `writeOk` says whether the write succeeded;
on failure the file keeps its previous state. A successful write leaves a file
that parses to the JSON normalization of the mapping. -/
def Config.save (writeOk : Bool) (prev : ConfigFile)
    (config : List (String × JValue)) : ConfigFile :=
  if writeOk then .parsed (.obj (jsonNormalizeFields config)) else prev

/-! ## The search runner -/

/-- Outcome of one call to `single_search`: it returns normally, raises
`TimeoutException`, or raises some other `WebDriverException`. -/
inductive AttemptResult where
  | success
  | timeout
  | wdError
  deriving DecidableEq

/-- How the per-term retry loop ends: the term completed (`break` after
`single_search` returned), the `while retries < max_retries` condition became
false (retries exhausted; also the case `max_retries = 0`), or a non-timeout
`WebDriverException` was re-raised. -/
inductive TermResult where
  | completed
  | exhausted
  | fatal
  deriving DecidableEq

/-- Status string of `update_status("Proceso cancelado por el usuario")`. -/
def cancelledStatus : String := "Proceso cancelado por el usuario"

/-- Status string of the per-retry `update_status` call. -/
def timeoutStatus (term : String) (retries maxR : Nat) : String :=
  "Timeout en \x27" ++ term ++ "\x27. Reintento " ++ toString retries ++
    "/" ++ toString maxR

/-- Status string emitted by a successful `single_search`. -/
def searchingStatus (term : String) (current total : Nat) : String :=
  "Buscando (" ++ toString current ++ "/" ++ toString total ++ "): " ++ term

/-- The final status report from the `finally` block. -/
def finalStatus (completed total : Nat) : String :=
  "Completadas " ++ toString completed ++ "/" ++ toString total ++ " búsquedas"

/-- `logging.error` message when a term exhausts its retries. -/
def exhaustLog (term : String) (retries : Nat) : String :=
  "Fallo al completar búsqueda para \x27" ++ term ++ "\x27 después de " ++
    toString retries ++ " reintentos"

/-- `logging.error` message for a non-timeout `WebDriverException`. -/
def wdErrorLog : String := "Error de WebDriver"

/-- Trace of one term's retry loop: how it ended, how many `single_search`
calls it made, the `update_status` messages, and the `logging.error` lines. -/
structure TermOut where
  result : TermResult
  attempts : Nat
  statuses : List String
  logs : List String

/-- The `while retries < max_retries` loop for one term (`Rewards.py` lines
123–136), with `remaining = max_retries - retries` iterations left and `base`
the number of `single_search` calls made so far in the whole run (the outcome
of the n-th call is `outcome n`). A successful call emits the `Buscando`
status (from inside `single_search`) and breaks; a `TimeoutException`
increments `retries`, emits the retry status, and logs a failure when the
limit is reached; any other `WebDriverException` is logged and re-raised. -/
def termLoop (outcome : Nat → AttemptResult) (term : String)
    (current total maxR : Nat) : Nat → Nat → TermOut
  | 0, _ => ⟨.exhausted, 0, [], []⟩
  | remaining + 1, base =>
    match outcome base with
    | .success => ⟨.completed, 1, [searchingStatus term current total], []⟩
    | .wdError => ⟨.fatal, 1, [], [wdErrorLog]⟩
    | .timeout =>
      let retries := maxR - remaining
      let rest := termLoop outcome term current total maxR remaining (base + 1)
      ⟨rest.result, rest.attempts + 1,
        timeoutStatus term retries maxR :: rest.statuses,
        (if retries = maxR then [exhaustLog term retries] else []) ++ rest.logs⟩

/-- Trace of the whole `for` loop over the terms. -/
structure LoopOut where
  completed : Nat
  statuses : List String
  logs : List String
  perTerm : List Nat
  fatal : Bool
  cancelled : Bool

/-- The `for i, search_term in enumerate(searches, 1)` loop (`Rewards.py`
lines 118–137): before each term the `running` flag is checked (cancellation
emits a status and breaks); then the term runs its retry loop with a fresh
`retries = 0`; a fatal term stops the loop (the exception propagates), any
other outcome advances to the next term, counting a completion only when the
term's `single_search` succeeded. -/
def runTerms (outcome : Nat → AttemptResult) (maxR total : Nat)
    (running : Bool) : List String → Nat → Nat → LoopOut
  | [], _, _ => ⟨0, [], [], [], false, false⟩
  | term :: rest, current, base =>
    if running then
      let t := termLoop outcome term current total maxR maxR base
      match t.result with
      | .fatal => ⟨0, t.statuses, t.logs, [t.attempts], true, false⟩
      | .completed =>
        let r := runTerms outcome maxR total running rest (current + 1)
          (base + t.attempts)
        ⟨r.completed + 1, t.statuses ++ r.statuses, t.logs ++ r.logs,
          t.attempts :: r.perTerm, r.fatal, r.cancelled⟩
      | .exhausted =>
        let r := runTerms outcome maxR total running rest (current + 1)
          (base + t.attempts)
        ⟨r.completed, t.statuses ++ r.statuses, t.logs ++ r.logs,
          t.attempts :: r.perTerm, r.fatal, r.cancelled⟩
    else ⟨0, [cancelledStatus], [], [], false, true⟩

/-- The exception (if any) that propagates out of `perform_search`. -/
inductive RunError where
  | fileNotFound
  | readError
  | emptyFile
  | driverSetupError
  | webDriverError
  deriving DecidableEq

/-- Observable result of a `perform_search` call: the propagated exception (if
any), the completed count and term count, the `update_status` trace, the
`logging.error` trace, the `single_search` call count per term entered, and
whether the browser session was constructed / `driver.quit()` attempted. -/
structure RunResult where
  error : Option RunError
  completed : Nat
  totalTerms : Nat
  statuses : List String
  logs : List String
  perTerm : List Nat
  sessionOpened : Bool
  sessionClosed : Bool

/-- Environment a `perform_search` call runs in. `searchFileLines = none`
models a read failure on an existing term file; `attemptOutcome n` is the
outcome of the n-th `single_search` call of the run; `running` is the
cancellation flag (fixed for the run: execution is single-threaded);
`maxRetries` is `self.config['max_retries']`. -/
structure RunEnv where
  searchFileExists : Bool
  driverPathExists : Bool
  searchFileLines : Option (List String)
  driverSetupOk : Bool
  attemptOutcome : Nat → AttemptResult
  running : Bool
  maxRetries : Nat

/-- Whitespace characters removed by Python `str.strip()` (the ASCII ones:
space, tab, newline, carriage return, vertical tab, form feed). -/
def pyIsSpace (c : Char) : Bool :=
  c = ' ' || c = '\t' || c = '\n' || c = '\r' || c = '\x0b' || c = '\x0c'

/-- Python `line.strip()`: drop whitespace from both ends. -/
def pyStrip (s : String) : String :=
  String.mk (((s.data.dropWhile pyIsSpace).reverse.dropWhile pyIsSpace).reverse)

/-- `[line.strip() for line in f if line.strip()]`: strip each line, drop the
ones that are empty after stripping (the empty string is falsy). -/
def parseSearches (lines : List String) : List String :=
  (lines.map pyStrip).filter (fun s => s != "")

/-- `BingSearchAutomation.perform_search` (`Rewards.py` lines 99–144).
Checks `os.path.isfile` on both paths (raising `FileNotFoundError`), reads and
filters the term file (wrapping read errors), rejects an empty term list, then
under `try/finally`: constructs the driver (a failure propagates, but the
`finally` block still emits the final report with `driver` still `None`), runs
the term loop, and in `finally` attempts `driver.quit()` (errors swallowed)
and emits `Completadas {completed}/{total} búsquedas`. -/
def perform_search (env : RunEnv) : RunResult :=
  if !(env.searchFileExists && env.driverPathExists) then
    ⟨some .fileNotFound, 0, 0, [], [], [], false, false⟩
  else
    match env.searchFileLines with
    | none => ⟨some .readError, 0, 0, [], [], [], false, false⟩
    | some lines =>
      let searches := parseSearches lines
      if searches.isEmpty then
        ⟨some .emptyFile, 0, 0, [], [], [], false, false⟩
      else if !env.driverSetupOk then
        ⟨some .driverSetupError, 0, searches.length,
          [finalStatus 0 searches.length], [], [], false, false⟩
      else
        let out := runTerms env.attemptOutcome env.maxRetries searches.length
          env.running searches 1 0
        ⟨if out.fatal then some .webDriverError else none,
         out.completed, searches.length,
         out.statuses ++ [finalStatus out.completed searches.length],
         out.logs, out.perTerm, true, true⟩

/-! ## Association-list lookup lemmas for the dict model -/

theorem lookup_append (k : String) (xs ys : List (String × JValue)) :
    List.lookup k (xs ++ ys) =
      match List.lookup k xs with
      | some v => some v
      | none => List.lookup k ys := by
  induction xs with
  | nil => simp
  | cons p xs ih =>
    obtain ⟨k1, v1⟩ := p
    by_cases h : k = k1
    · subst h; simp [List.lookup]
    · have hb : (k == k1) = false := by simp [h]
      simp [List.lookup, hb, ih]

theorem lookup_map_overrideWith (a b : List (String × JValue)) (k : String) :
    List.lookup k (a.map (overrideWith b)) =
      match List.lookup k a, List.lookup k b with
      | some _, some w => some w
      | some v, none => some v
      | none, _ => none := by
  induction a with
  | nil => simp [List.lookup]
  | cons p a ih =>
    obtain ⟨k1, v1⟩ := p
    by_cases h : k = k1
    · subst h
      cases hb : List.lookup k b <;> simp [List.lookup, overrideWith, hb]
    · have hbe : (k == k1) = false := by simp [h]
      simp [List.lookup, overrideWith, hbe, ih]

theorem lookup_filter_isNone (a b : List (String × JValue)) (k : String) :
    List.lookup k (b.filter (fun q => (List.lookup q.1 a).isNone)) =
      if (List.lookup k a).isNone then List.lookup k b else none := by
  induction b with
  | nil => simp [List.lookup]
  | cons p b ih =>
    obtain ⟨k1, v1⟩ := p
    by_cases h : k = k1
    · subst h
      cases ha : (List.lookup k a).isNone <;>
        simp [List.filter_cons, List.lookup, ha, ih]
    · have hbe : (k == k1) = false := by simp [h]
      cases ha : (List.lookup k1 a).isNone <;>
        simp [List.filter_cons, List.lookup, h, ha, hbe, ih]

/-- Lookup in a Python dict-merge `{**a, **b}`: `b`'s binding wins, else `a`'s. -/
theorem lookup_pyMerge (a b : List (String × JValue)) (k : String) :
    List.lookup k (pyMerge a b) =
      match List.lookup k b with
      | some v => some v
      | none => List.lookup k a := by
  unfold pyMerge
  rw [lookup_append, lookup_map_overrideWith, lookup_filter_isNone]
  cases ha : List.lookup k a <;> cases hb : List.lookup k b <;> simp [ha, hb]

/-- A `json.dump`/`json.load` round-trip normalizes each value of a dict. -/
theorem lookup_jsonNormalizeFields (c : List (String × JValue)) (k : String) :
    List.lookup k (jsonNormalizeFields c) = (List.lookup k c).map jsonNormalize := by
  induction c with
  | nil => simp [jsonNormalizeFields]
  | cons p c ih =>
    obtain ⟨k1, v1⟩ := p
    by_cases h : k = k1
    · subst h; simp [jsonNormalizeFields, List.lookup]
    · have hbe : (k == k1) = false := by simp [h]
      simp [jsonNormalizeFields, List.lookup, hbe, ih]

/-! ## Retry-loop lemmas -/

/-- When every remaining attempt times out, the retry loop exits by exhausting
its budget, having called `single_search` once per remaining iteration. -/
theorem termLoop_all_timeout (outcome : Nat → AttemptResult) (term : String)
    (current total maxR : Nat) (remaining base : Nat)
    (h : ∀ j, j < remaining → outcome (base + j) = .timeout) :
    (termLoop outcome term current total maxR remaining base).result = .exhausted ∧
    (termLoop outcome term current total maxR remaining base).attempts = remaining := by
  induction remaining generalizing base with
  | zero => simp [termLoop]
  | succ m ih =>
    have h0 : outcome base = .timeout := by simpa using h 0 (Nat.succ_pos m)
    have ih' := ih (base + 1) (fun j hj => by
      rw [show base + 1 + j = base + (j + 1) by omega]
      exact h (j + 1) (by omega))
    simp [termLoop, h0, ih'.1, ih'.2]

/-- A non-timeout `WebDriverException` on attempt `k` (after `k` timeouts)
makes the retry loop fatal after `k + 1` calls. -/
theorem termLoop_fatal (outcome : Nat → AttemptResult) (term : String)
    (current total maxR : Nat) (k remaining base : Nat)
    (hk : k < remaining)
    (ht : ∀ j, j < k → outcome (base + j) = .timeout)
    (hw : outcome (base + k) = .wdError) :
    (termLoop outcome term current total maxR remaining base).result = .fatal ∧
    (termLoop outcome term current total maxR remaining base).attempts = k + 1 := by
  induction k generalizing base remaining with
  | zero =>
    obtain ⟨m, rfl⟩ : ∃ m, remaining = m + 1 := ⟨remaining - 1, by omega⟩
    have hw0 : outcome base = .wdError := by simpa using hw
    simp [termLoop, hw0]
  | succ n ih =>
    obtain ⟨m, rfl⟩ : ∃ m, remaining = m + 1 := ⟨remaining - 1, by omega⟩
    have h0 : outcome base = .timeout := by simpa using ht 0 (Nat.succ_pos n)
    have ih' := ih m (base + 1) (by omega)
      (fun j hj => by
        rw [show base + 1 + j = base + (j + 1) by omega]
        exact ht (j + 1) (by omega))
      (by rw [show base + 1 + n = base + (n + 1) by omega]; exact hw)
    simp [termLoop, h0, ih'.1, ih'.2]

/-- When every `single_search` call of the run times out, the term loop
completes nothing, attempts each term exactly `maxR` times, and no error
propagates. -/
theorem runTerms_all_timeout (outcome : Nat → AttemptResult) (maxR total : Nat)
    (terms : List String) (current base : Nat)
    (h : ∀ j, outcome j = .timeout) :
    (runTerms outcome maxR total true terms current base).completed = 0 ∧
    (runTerms outcome maxR total true terms current base).perTerm =
      List.replicate terms.length maxR ∧
    (runTerms outcome maxR total true terms current base).fatal = false := by
  induction terms generalizing current base with
  | nil => simp [runTerms]
  | cons t ts ih =>
    have hT := termLoop_all_timeout outcome t current total maxR maxR base
      (fun j _ => h _)
    have ihr := ih (current + 1) (base + maxR)
    simp [runTerms, hT.1, hT.2, ihr.1, ihr.2.1, ihr.2.2, List.replicate]

/-- With `max_retries = 0` the `while` condition is false at once: no
`single_search` call, no status, no log, for any term. -/
theorem runTerms_zero_retries (outcome : Nat → AttemptResult) (total : Nat)
    (terms : List String) (current base : Nat) :
    runTerms outcome 0 total true terms current base =
      ⟨0, [], [], List.replicate terms.length 0, false, false⟩ := by
  induction terms generalizing current base with
  | nil => simp [runTerms]
  | cons t ts ih => simp [runTerms, termLoop, ih, List.replicate]

/-- Exhausting the first term's retries skips it and hands the rest of the
list to the same loop (retry counter reset to a full budget). -/
theorem runTerms_cons_exhausted (outcome : Nat → AttemptResult)
    (maxR total : Nat) (term : String) (rest : List String) (current base : Nat)
    (h : ∀ j, j < maxR → outcome (base + j) = .timeout) :
    (runTerms outcome maxR total true (term :: rest) current base).completed =
      (runTerms outcome maxR total true rest (current + 1) (base + maxR)).completed ∧
    (runTerms outcome maxR total true (term :: rest) current base).perTerm =
      maxR :: (runTerms outcome maxR total true rest (current + 1) (base + maxR)).perTerm ∧
    (runTerms outcome maxR total true (term :: rest) current base).fatal =
      (runTerms outcome maxR total true rest (current + 1) (base + maxR)).fatal := by
  have hT := termLoop_all_timeout outcome term current total maxR maxR base h
  simp [runTerms, hT.1, hT.2]

/-- A non-timeout `WebDriverException` during the first term stops the loop:
no later term is entered. -/
theorem runTerms_cons_fatal (outcome : Nat → AttemptResult)
    (maxR total : Nat) (term : String) (rest : List String) (current base k : Nat)
    (hk : k < maxR)
    (ht : ∀ j, j < k → outcome (base + j) = .timeout)
    (hw : outcome (base + k) = .wdError) :
    (runTerms outcome maxR total true (term :: rest) current base).fatal = true ∧
    (runTerms outcome maxR total true (term :: rest) current base).perTerm = [k + 1] ∧
    (runTerms outcome maxR total true (term :: rest) current base).completed = 0 := by
  have hT := termLoop_fatal outcome term current total maxR k maxR base hk ht hw
  simp [runTerms, hT.1, hT.2]

/-- On a valid run (both files exist, the term file is readable with at least
one non-blank line, the driver launches) `perform_search` is the term loop
followed by the final report, with the session opened and closed. -/
theorem perform_search_run (env : RunEnv) (lines : List String)
    (hex : env.searchFileExists = true) (hdr : env.driverPathExists = true)
    (hlines : env.searchFileLines = some lines)
    (hne : parseSearches lines ≠ [])
    (hok : env.driverSetupOk = true) :
    perform_search env =
      ⟨if (runTerms env.attemptOutcome env.maxRetries (parseSearches lines).length
            env.running (parseSearches lines) 1 0).fatal
          then some .webDriverError else none,
       (runTerms env.attemptOutcome env.maxRetries (parseSearches lines).length
          env.running (parseSearches lines) 1 0).completed,
       (parseSearches lines).length,
       (runTerms env.attemptOutcome env.maxRetries (parseSearches lines).length
          env.running (parseSearches lines) 1 0).statuses ++
         [finalStatus (runTerms env.attemptOutcome env.maxRetries
            (parseSearches lines).length env.running (parseSearches lines) 1 0).completed
            (parseSearches lines).length],
       (runTerms env.attemptOutcome env.maxRetries (parseSearches lines).length
          env.running (parseSearches lines) 1 0).logs,
       (runTerms env.attemptOutcome env.maxRetries (parseSearches lines).length
          env.running (parseSearches lines) 1 0).perTerm,
       true, true⟩ := by
  have hne' : (parseSearches lines).isEmpty = false := by
    simp [List.isEmpty_iff, hne]
  simp [perform_search, hex, hdr, hlines, hne', hok]

/-! ## Claim theorems -/

/-- Claim C1: for every non-empty term list and configured `max_retries = R`,
if every `single_search` call raises a page-load timeout, the run terminates
(the model is a total function over the same loop structure), attempts each
term exactly `R` times, completes nothing, reports `Completadas 0/N búsquedas`
as its final status, and lets no error propagate. -/
theorem perform_search_all_timeouts (env : RunEnv) (lines : List String)
    (hex : env.searchFileExists = true) (hdr : env.driverPathExists = true)
    (hlines : env.searchFileLines = some lines)
    (hne : parseSearches lines ≠ [])
    (hok : env.driverSetupOk = true)
    (hrun : env.running = true)
    (ht : ∀ j, env.attemptOutcome j = .timeout) :
    (perform_search env).completed = 0 ∧
    (perform_search env).perTerm =
      List.replicate (parseSearches lines).length env.maxRetries ∧
    (perform_search env).statuses.getLast? =
      some (finalStatus 0 (parseSearches lines).length) ∧
    (perform_search env).error = none := by
  have hR := runTerms_all_timeout env.attemptOutcome env.maxRetries
    (parseSearches lines).length (parseSearches lines) 1 0 ht
  rw [perform_search_run env lines hex hdr hlines hne hok, hrun]
  simp [hR.1, hR.2.1, hR.2.2, List.getLast?_concat]

/-- Witness for C1: two terms, `max_retries = 2`, every call times out. -/
theorem perform_search_all_timeouts_witness :
    (perform_search ⟨true, true, some ["a", "b"], true,
        fun _ => .timeout, true, 2⟩).completed = 0 ∧
    (perform_search ⟨true, true, some ["a", "b"], true,
        fun _ => .timeout, true, 2⟩).perTerm =
      List.replicate (parseSearches ["a", "b"]).length 2 ∧
    (perform_search ⟨true, true, some ["a", "b"], true,
        fun _ => .timeout, true, 2⟩).statuses.getLast? =
      some (finalStatus 0 (parseSearches ["a", "b"]).length) ∧
    (perform_search ⟨true, true, some ["a", "b"], true,
        fun _ => .timeout, true, 2⟩).error = none :=
  perform_search_all_timeouts
    ⟨true, true, some ["a", "b"], true, fun _ => .timeout, true, 2⟩
    ["a", "b"] rfl rfl rfl (by decide) rfl rfl (fun _ => rfl)

/-- Claim C2: (1) a term whose `max_retries` attempts all time out is skipped
and the loop continues with the next term and a fresh retry budget;
(2) a non-timeout `WebDriverException` on some attempt makes the run fatal at
that term, with no further term entered; (3) on a valid run a
`WebDriverException` propagates out of `perform_search` exactly when the term
loop hit one. -/
theorem retry_exhaustion_and_fatal_propagation :
    (∀ (outcome : Nat → AttemptResult) (maxR total : Nat) (term : String)
        (rest : List String) (current base : Nat),
      (∀ j, j < maxR → outcome (base + j) = .timeout) →
      (runTerms outcome maxR total true (term :: rest) current base).completed =
        (runTerms outcome maxR total true rest (current + 1) (base + maxR)).completed ∧
      (runTerms outcome maxR total true (term :: rest) current base).perTerm =
        maxR :: (runTerms outcome maxR total true rest (current + 1) (base + maxR)).perTerm ∧
      (runTerms outcome maxR total true (term :: rest) current base).fatal =
        (runTerms outcome maxR total true rest (current + 1) (base + maxR)).fatal) ∧
    (∀ (outcome : Nat → AttemptResult) (maxR total : Nat) (term : String)
        (rest : List String) (current base k : Nat),
      k < maxR →
      (∀ j, j < k → outcome (base + j) = .timeout) →
      outcome (base + k) = .wdError →
      (runTerms outcome maxR total true (term :: rest) current base).fatal = true ∧
      (runTerms outcome maxR total true (term :: rest) current base).perTerm = [k + 1] ∧
      (runTerms outcome maxR total true (term :: rest) current base).completed = 0) ∧
    (∀ (env : RunEnv) (lines : List String),
      env.searchFileExists = true → env.driverPathExists = true →
      env.searchFileLines = some lines → parseSearches lines ≠ [] →
      env.driverSetupOk = true →
      ((perform_search env).error = some .webDriverError ↔
        (runTerms env.attemptOutcome env.maxRetries (parseSearches lines).length
          env.running (parseSearches lines) 1 0).fatal = true)) := by
  refine ⟨?_, ?_, ?_⟩
  · intro outcome maxR total term rest current base h
    exact runTerms_cons_exhausted outcome maxR total term rest current base h
  · intro outcome maxR total term rest current base k hk ht hw
    exact runTerms_cons_fatal outcome maxR total term rest current base k hk ht hw
  · intro env lines hex hdr hlines hne hok
    rw [perform_search_run env lines hex hdr hlines hne hok]
    cases hf : (runTerms env.attemptOutcome env.maxRetries (parseSearches lines).length
        env.running (parseSearches lines) 1 0).fatal <;> simp [hf]

/-- Witness for C2: part 1 with two terms and all timeouts, part 2 with a
`WebDriverException` on the second attempt, part 3 with a fatal run. -/
theorem retry_exhaustion_and_fatal_propagation_witness :
    ((runTerms (fun _ => .timeout) 2 2 true ["a", "b"] 1 0).completed =
       (runTerms (fun _ => .timeout) 2 2 true ["b"] 2 2).completed ∧
     (runTerms (fun _ => .timeout) 2 2 true ["a", "b"] 1 0).perTerm =
       2 :: (runTerms (fun _ => .timeout) 2 2 true ["b"] 2 2).perTerm ∧
     (runTerms (fun _ => .timeout) 2 2 true ["a", "b"] 1 0).fatal =
       (runTerms (fun _ => .timeout) 2 2 true ["b"] 2 2).fatal) ∧
    ((runTerms (fun n => if n = 0 then .timeout else .wdError)
        3 2 true ["a", "b"] 1 0).fatal = true ∧
     (runTerms (fun n => if n = 0 then .timeout else .wdError)
        3 2 true ["a", "b"] 1 0).perTerm = [2] ∧
     (runTerms (fun n => if n = 0 then .timeout else .wdError)
        3 2 true ["a", "b"] 1 0).completed = 0) ∧
    ((perform_search ⟨true, true, some ["a"], true,
        fun _ => .wdError, true, 3⟩).error = some .webDriverError ↔
      (runTerms (fun _ => .wdError) 3 (parseSearches ["a"]).length true
        (parseSearches ["a"]) 1 0).fatal = true) :=
  ⟨retry_exhaustion_and_fatal_propagation.1 (fun _ => .timeout) 2 2 "a" ["b"] 1 0
     (fun _ _ => rfl),
   retry_exhaustion_and_fatal_propagation.2.1
     (fun n => if n = 0 then .timeout else .wdError) 3 2 "a" ["b"] 1 0 1
     (by decide)
     (fun j hj => by
       have hj0 : j = 0 := by omega
       subst hj0; rfl)
     rfl,
   retry_exhaustion_and_fatal_propagation.2.2
     ⟨true, true, some ["a"], true, fun _ => .wdError, true, 3⟩
     ["a"] rfl rfl rfl (by decide) rfl⟩

/-- Claim C3 as stated is false: the session IS opened. Concrete input: valid
files, one term, `running = false` before the start. The run completes 0
terms and emits the cancelled status — the claim's scenario — yet
`sessionOpened` is `true`, because `setup_driver` runs before the loop's
`running` check (`Rewards.py` line 116 vs 119). -/
theorem cancelled_run_still_opens_session :
    (perform_search ⟨true, true, some ["cats"], true,
        fun _ => .success, false, 3⟩).completed = 0 ∧
    cancelledStatus ∈ (perform_search ⟨true, true, some ["cats"], true,
        fun _ => .success, false, 3⟩).statuses ∧
    ¬ (perform_search ⟨true, true, some ["cats"], true,
        fun _ => .success, false, 3⟩).sessionOpened = false :=
  ⟨rfl, by decide, by decide⟩

/-- Claim C3 (amended): with the running flag false at the start of a valid
run, `perform_search` completes 0 terms, emits the cancelled status followed
by the `0/N` report, and never calls `single_search` — but the browser
session is still opened (and then closed), since `setup_driver` precedes the
cancellation check. -/
theorem cancelled_before_start (env : RunEnv) (lines : List String)
    (hex : env.searchFileExists = true) (hdr : env.driverPathExists = true)
    (hlines : env.searchFileLines = some lines)
    (hne : parseSearches lines ≠ [])
    (hok : env.driverSetupOk = true)
    (hrun : env.running = false) :
    (perform_search env).completed = 0 ∧
    (perform_search env).statuses =
      [cancelledStatus, finalStatus 0 (parseSearches lines).length] ∧
    (perform_search env).perTerm = [] ∧
    (perform_search env).error = none ∧
    (perform_search env).sessionOpened = true ∧
    (perform_search env).sessionClosed = true := by
  obtain ⟨t, ts, hcons⟩ : ∃ t ts, parseSearches lines = t :: ts := by
    cases h : parseSearches lines with
    | nil => exact absurd h hne
    | cons a l => exact ⟨a, l, rfl⟩
  rw [perform_search_run env lines hex hdr hlines hne hok, hrun, hcons]
  simp [runTerms]

/-- Witness for the amended C3: one term, flag already false. -/
theorem cancelled_before_start_witness :
    (perform_search ⟨true, true, some ["x"], true,
        fun _ => .success, false, 3⟩).completed = 0 ∧
    (perform_search ⟨true, true, some ["x"], true,
        fun _ => .success, false, 3⟩).statuses =
      [cancelledStatus, finalStatus 0 (parseSearches ["x"]).length] ∧
    (perform_search ⟨true, true, some ["x"], true,
        fun _ => .success, false, 3⟩).perTerm = [] ∧
    (perform_search ⟨true, true, some ["x"], true,
        fun _ => .success, false, 3⟩).error = none ∧
    (perform_search ⟨true, true, some ["x"], true,
        fun _ => .success, false, 3⟩).sessionOpened = true ∧
    (perform_search ⟨true, true, some ["x"], true,
        fun _ => .success, false, 3⟩).sessionClosed = true :=
  cancelled_before_start
    ⟨true, true, some ["x"], true, fun _ => .success, false, 3⟩
    ["x"] rfl rfl rfl (by decide) rfl rfl

/-- Claim C4: `Config.load` is total (the model is a total function over every
file state); a missing file yields exactly the documented defaults (delay
window 3–7, timeout 30, 3 retries, logging on, headless off); a parsed object
merges its keys over the defaults, overriding where present and keeping every
default binding otherwise; any other failure falls back to the defaults. -/
theorem config_load_defaults_and_merge :
    Config.load .missing = DEFAULT_CONFIG ∧
    (List.lookup "search_delay" DEFAULT_CONFIG = some (.tup [.num 3, .num 7]) ∧
     List.lookup "page_load_timeout" DEFAULT_CONFIG = some (.num 30) ∧
     List.lookup "max_retries" DEFAULT_CONFIG = some (.num 3) ∧
     List.lookup "save_log" DEFAULT_CONFIG = some (.jbool true) ∧
     List.lookup "headless_mode" DEFAULT_CONFIG = some (.jbool false)) ∧
    Config.load .malformed = DEFAULT_CONFIG ∧
    (∀ (fields : List (String × JValue)) (k : String) (v : JValue),
      List.lookup k fields = some v →
      List.lookup k (Config.load (.parsed (.obj fields))) = some v) ∧
    (∀ (fields : List (String × JValue)) (k : String),
      List.lookup k fields = none →
      List.lookup k (Config.load (.parsed (.obj fields))) =
        List.lookup k DEFAULT_CONFIG) := by
  refine ⟨rfl, ⟨rfl, rfl, rfl, rfl, rfl⟩, rfl, ?_, ?_⟩
  · intro fields k v hv
    simp [Config.load, lookup_pyMerge, hv]
  · intro fields k hn
    simp [Config.load, lookup_pyMerge, hn]

/-- Witness for C4: a one-key file overrides `max_retries` and keeps the
default `save_log`. -/
theorem config_load_defaults_and_merge_witness :
    List.lookup "max_retries"
      (Config.load (.parsed (.obj [("max_retries", .num 5)]))) = some (.num 5) ∧
    List.lookup "save_log"
      (Config.load (.parsed (.obj [("max_retries", .num 5)]))) =
      List.lookup "save_log" DEFAULT_CONFIG :=
  ⟨config_load_defaults_and_merge.2.2.2.1 [("max_retries", .num 5)]
     "max_retries" (.num 5) rfl,
   config_load_defaults_and_merge.2.2.2.2 [("max_retries", .num 5)]
     "save_log" rfl⟩

/-- Claim C5 as stated is false at a concrete input: the configuration is the
built-in `DEFAULT_CONFIG` itself, whose `search_delay` is the Python tuple
`(3, 7)`. `json.dump` serializes a tuple as a JSON array, so after
save-then-load the key is bound to the list `[3, 7]`, which Python does not
consider equal to the tuple `(3, 7)` — the value did not round-trip
unchanged. -/
theorem config_roundtrip_changes_tuple :
    List.lookup "search_delay"
      (Config.load (Config.save true .missing DEFAULT_CONFIG)) ≠
      List.lookup "search_delay" DEFAULT_CONFIG := by
  intro h
  rw [show List.lookup "search_delay"
        (Config.load (Config.save true .missing DEFAULT_CONFIG)) =
        some (.arr [.num 3, .num 7]) from rfl,
      show List.lookup "search_delay" DEFAULT_CONFIG =
        some (.tup [.num 3, .num 7]) from rfl] at h
  injection h with h2
  exact JValue.noConfusion h2

/-- Claim C5 (amended): for every JSON-serializable configuration mapping,
`Config.load` after a successful `Config.save` binds every key of the mapping
to the JSON normalization of its value — identical up to tuples coming back
as arrays; in particular any key whose value contains no tuple round-trips
unchanged. -/
theorem config_roundtrip_normalizes (c : List (String × JValue))
    (prev : ConfigFile) (k : String) (v : JValue)
    (h : List.lookup k c = some v) :
    List.lookup k (Config.load (Config.save true prev c)) =
      some (jsonNormalize v) := by
  simp [Config.save, Config.load, lookup_pyMerge, lookup_jsonNormalizeFields, h]

/-- Witness for the amended C5: the `max_retries` key of the defaults (a plain
number) round-trips to its own normalization. -/
theorem config_roundtrip_normalizes_witness :
    List.lookup "max_retries"
      (Config.load (Config.save true .missing DEFAULT_CONFIG)) =
      some (jsonNormalize (.num 3)) :=
  config_roundtrip_normalizes DEFAULT_CONFIG .missing "max_retries" (.num 3) rfl

/-- Claim C6: when either path does not reference an existing file,
`perform_search` raises `FileNotFoundError` at once — no status, no session —
and the result does not depend on the term file's content (it was never
read). -/
theorem missing_files_fail_fast (env : RunEnv)
    (h : env.searchFileExists = false ∨ env.driverPathExists = false) :
    (perform_search env).error = some .fileNotFound ∧
    (perform_search env).sessionOpened = false ∧
    (perform_search env).statuses = [] ∧
    ∀ l, perform_search { env with searchFileLines := l } = perform_search env := by
  have hc : (env.searchFileExists && env.driverPathExists) = false := by
    rcases h with h | h <;> simp [h]
  refine ⟨?_, ?_, ?_, ?_⟩ <;> simp [perform_search, hc]

/-- Witness for C6: a missing driver path fails fast, whatever the term file
would have contained. -/
theorem missing_files_fail_fast_witness :
    (perform_search ⟨true, false, some ["a"], true,
        fun _ => .success, true, 3⟩).error = some .fileNotFound ∧
    (perform_search ⟨true, false, some ["a"], true,
        fun _ => .success, true, 3⟩).sessionOpened = false ∧
    (perform_search ⟨true, false, some ["a"], true,
        fun _ => .success, true, 3⟩).statuses = [] ∧
    perform_search { (⟨true, false, some ["a"], true,
        fun _ => .success, true, 3⟩ : RunEnv) with searchFileLines := none } =
      perform_search (⟨true, false, some ["a"], true,
        fun _ => .success, true, 3⟩ : RunEnv) :=
  ⟨(missing_files_fail_fast ⟨true, false, some ["a"], true,
      fun _ => .success, true, 3⟩ (Or.inr rfl)).1,
   (missing_files_fail_fast ⟨true, false, some ["a"], true,
      fun _ => .success, true, 3⟩ (Or.inr rfl)).2.1,
   (missing_files_fail_fast ⟨true, false, some ["a"], true,
      fun _ => .success, true, 3⟩ (Or.inr rfl)).2.2.1,
   (missing_files_fail_fast ⟨true, false, some ["a"], true,
      fun _ => .success, true, 3⟩ (Or.inr rfl)).2.2.2 none⟩

/-- Claim C7: on every exit path on which the browser session was opened —
normal completion, cancellation, or a fatal error propagating — the `finally`
block attempts `driver.quit()` (its errors swallowed) and the last status
emitted is the `completed/total` report. -/
theorem session_closed_and_final_report (env : RunEnv)
    (h : (perform_search env).sessionOpened = true) :
    (perform_search env).sessionClosed = true ∧
    (perform_search env).statuses.getLast? =
      some (finalStatus (perform_search env).completed
        (perform_search env).totalTerms) := by
  revert h
  simp only [perform_search]
  split
  · simp
  · split
    · simp
    · split
      · simp
      · split
        · simp
        · simp [List.getLast?_concat]

/-- Witness for C7: a fatal run (first call raises a `WebDriverException`)
still closes the session and reports `0/1`. -/
theorem session_closed_and_final_report_witness :
    (perform_search ⟨true, true, some ["a"], true,
        fun _ => .wdError, true, 3⟩).sessionClosed = true ∧
    (perform_search ⟨true, true, some ["a"], true,
        fun _ => .wdError, true, 3⟩).statuses.getLast? =
      some (finalStatus
        (perform_search ⟨true, true, some ["a"], true,
          fun _ => .wdError, true, 3⟩).completed
        (perform_search ⟨true, true, some ["a"], true,
          fun _ => .wdError, true, 3⟩).totalTerms) :=
  session_closed_and_final_report
    ⟨true, true, some ["a"], true, fun _ => .wdError, true, 3⟩ rfl

/-- Claim C8: the spec's concrete scenario — term file `["cats", "dogs", ""]`,
`max_retries = 3`, every search succeeding on the first attempt. The blank
line is dropped (2 effective terms), each term takes exactly one
`single_search` call, and the run ends with `Completadas 2/2 búsquedas`. -/
theorem scenario_cats_dogs_blank :
    parseSearches ["cats", "dogs", ""] = ["cats", "dogs"] ∧
    (perform_search ⟨true, true, some ["cats", "dogs", ""], true,
        fun _ => .success, true, 3⟩).totalTerms = 2 ∧
    (perform_search ⟨true, true, some ["cats", "dogs", ""], true,
        fun _ => .success, true, 3⟩).completed = 2 ∧
    (perform_search ⟨true, true, some ["cats", "dogs", ""], true,
        fun _ => .success, true, 3⟩).perTerm = [1, 1] ∧
    (perform_search ⟨true, true, some ["cats", "dogs", ""], true,
        fun _ => .success, true, 3⟩).statuses.getLast? =
      some "Completadas 2/2 búsquedas" :=
  ⟨rfl, rfl, rfl, rfl, rfl⟩

/-- Claim C9: whatever the configuration file holds — missing, malformed, a
non-object, or any object — the mapping `Config.load` returns binds all five
default keys. -/
theorem config_load_has_default_keys (cf : ConfigFile) (k : String)
    (hk : k = "search_delay" ∨ k = "page_load_timeout" ∨ k = "max_retries" ∨
      k = "save_log" ∨ k = "headless_mode") :
    (List.lookup k (Config.load cf)).isSome = true := by
  have hdef : (List.lookup k DEFAULT_CONFIG).isSome = true := by
    rcases hk with rfl | rfl | rfl | rfl | rfl <;> rfl
  cases cf with
  | missing => exact hdef
  | malformed => exact hdef
  | parsed v =>
    cases v with
    | obj fields =>
      rw [show Config.load (.parsed (.obj fields)) =
            pyMerge DEFAULT_CONFIG fields from rfl, lookup_pyMerge]
      cases hf : List.lookup k fields <;> simp [hf, hdef]
    | null => exact hdef
    | jbool b => exact hdef
    | num n => exact hdef
    | str s => exact hdef
    | arr xs => exact hdef
    | tup xs => exact hdef

/-- Witness for C9: the missing-file state still binds `save_log`. -/
theorem config_load_has_default_keys_witness :
    (List.lookup "save_log" (Config.load .missing)).isSome = true :=
  config_load_has_default_keys .missing "save_log"
    (Or.inr (Or.inr (Or.inr (Or.inl rfl))))

/-- Claim C10: with `max_retries = 0` the `while retries < max_retries`
condition is false immediately for every term, so `single_search` is never
called, no timeout status and no failure log is emitted, and the run ends
reporting `0/N`. -/
theorem zero_retries_no_attempts (env : RunEnv) (lines : List String)
    (hex : env.searchFileExists = true) (hdr : env.driverPathExists = true)
    (hlines : env.searchFileLines = some lines)
    (hne : parseSearches lines ≠ [])
    (hok : env.driverSetupOk = true)
    (hrun : env.running = true)
    (hzero : env.maxRetries = 0) :
    (perform_search env).perTerm = List.replicate (parseSearches lines).length 0 ∧
    (perform_search env).completed = 0 ∧
    (perform_search env).statuses = [finalStatus 0 (parseSearches lines).length] ∧
    (perform_search env).logs = [] ∧
    (perform_search env).error = none := by
  rw [perform_search_run env lines hex hdr hlines hne hok, hrun, hzero]
  rw [runTerms_zero_retries]
  simp

/-- Witness for C10: two terms, `max_retries = 0`. -/
theorem zero_retries_no_attempts_witness :
    (perform_search ⟨true, true, some ["a", "b"], true,
        fun _ => .success, true, 0⟩).perTerm =
      List.replicate (parseSearches ["a", "b"]).length 0 ∧
    (perform_search ⟨true, true, some ["a", "b"], true,
        fun _ => .success, true, 0⟩).completed = 0 ∧
    (perform_search ⟨true, true, some ["a", "b"], true,
        fun _ => .success, true, 0⟩).statuses =
      [finalStatus 0 (parseSearches ["a", "b"]).length] ∧
    (perform_search ⟨true, true, some ["a", "b"], true,
        fun _ => .success, true, 0⟩).logs = [] ∧
    (perform_search ⟨true, true, some ["a", "b"], true,
        fun _ => .success, true, 0⟩).error = none :=
  zero_retries_no_attempts
    ⟨true, true, some ["a", "b"], true, fun _ => .success, true, 0⟩
    ["a", "b"] rfl rfl rfl (by decide) rfl rfl rfl

end Rewards
